import Mathlib

/-!
Verification of the retrieval-augmented SQL-generation pipeline of the
GENAI_PROJECT_ECOMMERCE_BOT repository.

The development shallowly embeds the relevant parts of the four source files:

* `backend/db/gemini_utils.py` — RAG initialization (`initialize_rag_components`),
  the prompt template, and the question-to-SQL pipeline (`get_sql_from_question`);
* `backend/db/run.py` — the Flask routes `/api/data/<table_name>` (`get_table_data`)
  and `/api/ask` (`ask`);
* `frontend/app.py` — the "Ask Bot" button handler;
* `dataloader/dataload.py` — the `preprocess_df` handling of the `eligibility` column.

Python strings are modelled as Lean `String`s (with helper functions reproducing
the semantics of `str.strip`, `str.startswith`, `str.lower` and Python list
indexing), machine floats of the embedding vectors are modelled by exact
integers (`Int`) — all properties proved here concern counts, ordering and
string structure, none depends on rounding — and exceptions are modelled with
`Except`.  The third-party FAISS index used by the code is embedded following
the documented behaviour of `faiss.IndexFlatL2` (exhaustive scan by squared L2
distance, ascending results, missing slots padded with label `-1` when `k`
exceeds the number of stored vectors).
-/

namespace EcommerceBot

/-! ## Python string primitives -/

/-- The whitespace characters removed by Python `str.strip()` (ASCII fragment;
the inputs considered here are ASCII). -/
def PY_WHITESPACE : List Char := [' ', '\t', '\n', '\x0b', '\x0c', '\r']

/-- Python `str.strip(chars)`: removes, from both ends, every character that is a
member of the set `chars` (NOT the literal prefix/suffix `chars`). -/
def pyStripChars (chars : List Char) (s : String) : String :=
  ⟨((s.toList.dropWhile (fun c => chars.contains c)).reverse.dropWhile
      (fun c => chars.contains c)).reverse⟩

/-- Python `str.strip()` with no argument: strip whitespace from both ends. -/
def pyStrip (s : String) : String := pyStripChars PY_WHITESPACE s

/-- Python `str.startswith(p)`. -/
def pyStartswith (s p : String) : Bool := p.toList.isPrefixOf s.toList

/-- Python `str.lower()` (ASCII fragment). -/
def pyLower (s : String) : String := ⟨s.toList.map Char.toLower⟩

/-- Python list indexing `xs[i]`: non-negative indices from the front, negative
indices from the back, `none` models an `IndexError`. -/
def pyGetIndex (xs : List String) (i : Int) : Option String :=
  if 0 ≤ i then xs.get? i.toNat
  else if (-i).toNat ≤ xs.length then xs.get? (xs.length - (-i).toNat)
  else none

/-! ## SQL extractor

`gemini_utils.py` line 195:
`sql_query = response.text.strip().strip("```sql").strip("```").strip()`.
Note that the Python calls are `str.strip(chars)`, which strip a *character
set*, not a literal fence marker. -/

/-- The character-set argument of the first fence strip: a backtick, `s`, `q`, `l`. -/
def FENCE_SQL_CHARS : String := "\x60\x60\x60sql"

/-- The character-set argument of the second fence strip: a backtick. -/
def FENCE_CHARS : String := "\x60\x60\x60"

/-- Embedding of line 195 of `gemini_utils.py`. -/
def extract_sql (response_text : String) : String :=
  pyStrip (pyStripChars FENCE_CHARS.toList
    (pyStripChars FENCE_SQL_CHARS.toList (pyStrip response_text)))

/-! ## FAISS `IndexFlatL2` model

`initialize_rag_components` builds `faiss.IndexFlatL2(dimension)` and adds one
embedding vector per knowledge-base document (lines 99-100);
`get_sql_from_question` calls `faiss_index.search(query_embedding, k=3)`
(line 179).  The index is embedded after FAISS's documented semantics for a
flat L2 index: score every stored vector by squared Euclidean distance to the
query, return the `k` closest in ascending order; when `k` exceeds the number
of stored vectors the result is padded to length `k` with label `-1` and a
huge sentinel distance (FAISS pads missing slots rather than shortening the
result). -/

/-- A flat L2 index: the list of stored vectors, position = document id. -/
structure IndexFlatL2 where
  vecs : List (List Int)
deriving DecidableEq

/-- Squared Euclidean (L2) distance, the metric of `faiss.IndexFlatL2`. -/
def sqDist (q v : List Int) : Int :=
  ((q.zip v).map (fun p => (p.1 - p.2) * (p.1 - p.2))).sum

/-- Score every stored vector against the query; `i` is the id of the first. -/
def scoredFrom (q : List Int) : List (List Int) → Nat → List (Int × Int)
  | [], _ => []
  | v :: vs, i => ((i : Int), sqDist q v) :: scoredFrom q vs (i + 1)

/-- Comparison of scored entries by distance. -/
def byDist (a b : Int × Int) : Prop := a.2 ≤ b.2

instance : DecidableRel byDist := fun a b => inferInstanceAs (Decidable (a.2 ≤ b.2))

instance : IsTotal (Int × Int) byDist := ⟨fun a b => le_total a.2 b.2⟩

instance : IsTrans (Int × Int) byDist := ⟨fun _ _ _ h1 h2 => le_trans h1 h2⟩

/-- The entry FAISS uses to pad missing result slots: label `-1` and a huge
sentinel distance (`FLT_MAX`, here as an exact integer). -/
def FAISS_PAD_ENTRY : Int × Int := (-1, 340282346638528859811704183484516925440)

/-- `index.search(q, k)`: the `k` nearest stored vectors as `(id, distance)`
pairs in ascending distance order, padded with `FAISS_PAD_ENTRY` when fewer
than `k` vectors are stored. -/
def IndexFlatL2.search (idx : IndexFlatL2) (q : List Int) (k : Nat) :
    List (Int × Int) :=
  let ranked := List.insertionSort byDist (scoredFrom q idx.vecs 0)
  ranked.take k ++ List.replicate (k - ranked.length) FAISS_PAD_ENTRY

/-! ## Prompt template and knowledge-base corpus

Literal embeddings of `SYSTEM_PROMPT_TEMPLATE` (lines 113-161 of
`gemini_utils.py`, split at its single `\x7bretrieved_context\x7d` placeholder)
and of the hard-coded `knowledge_base_documents` list (lines 60-91).  Every
character of the source literals is reproduced exactly (non-ASCII characters as
`\u` escapes). -/

def SYSTEM_PROMPT_TEMPLATE_before_placeholder : String :=
  "\n" ++
  "You are a helpful and precise assistant that converts user questions into valid PostgreSQL SELECT queries.\n" ++
  "\n" ++
  "You are working with a PostgreSQL database called \x60ecommerce_data\x60 containing these **exact tables and columns**:\n" ++
  "\n" ++
  "\uF8FF\u00FC\u00EC\u00E5 Table: \x60sales_summary\x60\n" ++
  "- date\n" ++
  "- item_id\n" ++
  "- total_sales\n" ++
  "- total_units_ordered\n" ++
  "\n" ++
  "\uF8FF\u00FC\u00EC\u00E5 Table: \x60ad_data\x60\n" ++
  "- date\n" ++
  "- item_id\n" ++
  "- ad_sales\n" ++
  "- impressions\n" ++
  "- ad_spend\n" ++
  "- clicks\n" ++
  "- units_sold\n" ++
  "\n" ++
  "\uF8FF\u00FC\u00EC\u00E5 Table: \x60eligibility_status\x60\n" ++
  "- eligibility_datetime_utc\n" ++
  "- item_id\n" ++
  "- eligibility\n" ++
  "- message\n" ++
  "\n" ++
  "\u201A\u00F6\u2020\u00D4\u220F\u00E8 Use these **exact table names**: \x60sales_summary\x60, \x60ad_data\x60, \x60eligibility_status\x60. Do NOT invent or singularize them (e.g., do NOT use \x60ad_sale\x60 or \x60total_sale\x60).\n" ++
  "\n" ++
  "\uF8FF\u00FC\u00DF\u2020 Rules:\n" ++
  "- Only return valid **PostgreSQL** SELECT statements.\n" ++
  "- Avoid division by zero. Use WHERE clause or CASE WHEN to prevent it.\n" ++
  "- Do not explain or format output.\n" ++
  "- Return pure SQL (no \x60\x60\x60sql or comments).\n" ++
  "- Do not add LIMIT unless explicitly asked.\n" ++
  "\n"

def SYSTEM_PROMPT_TEMPLATE_after_placeholder : String :=
  "\n" ++
  "\n" ++
  "Here are some examples:\n" ++
  "Q: What is the total revenue?\n" ++
  "A: SELECT SUM(total_sales) FROM sales_summary;\n" ++
  "\n" ++
  "Q: Show all ad-related metrics.\n" ++
  "A: SELECT * FROM ad_data;\n" ++
  "\n" ++
  "Q: Show eligibility status of items.\n" ++
  "A: SELECT item_id, eligibility, message FROM eligibility_status;\n" ++
  "\n" ++
  "Now convert the user\x27s question to a valid SQL query.\n"

def knowledge_base_documents : List String := [
  "Table: sales_summary, Columns: date (date), item_id (numeric ID), total_sales (numeric), total_units_ordered (numeric). Describes daily sales and units for items. Use for questions about sales, units, or item performance.",
  "Table: ad_data, Columns: date (date), item_id (numeric ID), ad_sales (numeric), impressions (numeric), ad_spend (numeric), clicks (numeric), units_sold (numeric). Contains advertising performance metrics. Use for questions about ads, spend, impressions, clicks, or ad-related sales.",
  "Table: eligibility_status, Columns: eligibility_datetime_utc (datetime), item_id (numeric ID), eligibility (text/boolean), message (text). Tracks item eligibility status. Use for questions about eligibility or status.",
  "Q: What is the total revenue? A: SELECT SUM(total_sales) FROM sales_summary;",
  "Q: Show all ad-related metrics. A: SELECT * FROM ad_data;",
  "Q: Show eligibility status of items. A: SELECT item_id, eligibility, message FROM eligibility_status;",
  "Q: What is the highest CPC? A: SELECT MAX(ad_spend / clicks) FROM ad_data WHERE clicks > 0;",
  "Q: What is the total sales for each item? A: SELECT item_id, SUM(total_sales) AS total_sales_per_item FROM sales_summary GROUP BY item_id ORDER BY total_sales_per_item DESC;",
  "Q: Show me monthly ad spend over time. A: SELECT TO_CHAR(date, \x27YYYY-MM\x27) AS month, SUM(ad_spend) AS monthly_ad_spend FROM ad_data GROUP BY TO_CHAR(date, \x27YYYY-MM\x27) ORDER BY TO_CHAR(date, \x27YYYY-MM\x27);",
  "Q: Compare ad spend vs. ad sales for different items. A: SELECT item_id, SUM(ad_spend) AS total_ad_spend, SUM(ad_sales) AS total_ad_sales FROM ad_data GROUP BY item_id;",
  "Q: What is the average daily units ordered? A: SELECT AVG(total_units_ordered) FROM sales_summary;",
  "Q: Which item has the most impressions? A: SELECT item_id, SUM(impressions) AS total_impressions FROM ad_data GROUP BY item_id ORDER BY total_impressions DESC LIMIT 1;",
  "Q: How many items are currently eligible? A: SELECT COUNT(DISTINCT item_id) FROM eligibility_status WHERE eligibility = \x27true\x27;",
  "Column: total_sales (sales_summary) - monetary value of sales.",
  "Column: total_units_ordered (sales_summary) - quantity of items sold.",
  "Column: ad_spend (ad_data) - money spent on advertising campaigns.",
  "Column: ad_sales (ad_data) - sales directly generated from ads.",
  "Column: clicks (ad_data) - number of times ads were clicked.",
  "Column: impressions (ad_data) - number of times ads were shown.",
  "Column: units_sold (ad_data) - quantity of units sold through advertising.",
  "Column: eligibility (eligibility_status) - status of an item\x27s eligibility (e.g., \x27true\x27, \x27false\x27, \x27eligible\x27, \x27not eligible\x27).",
  "Calculation: ROAS (Return on Ad Spend) = SUM(ad_sales) / SUM(ad_spend).",
  "Calculation: CPC (Cost Per Click) = ad_spend / clicks.",
  "Calculation: CTR (Click-Through Rate) = clicks / impressions.",
  "Always use TO_CHAR(date_column, \x27YYYY-MM\x27) for monthly grouping in PostgreSQL."]


/-! ## Prompt assembly (`get_sql_from_question`, lines 181-190) -/

/-- The header with which line 181 initializes `retrieved_context_str`. -/
def RETRIEVED_CONTEXT_HEADER : String := "\n\nRelevant Context for your question:\n"

/-- Lines 181-184: the loop `retrieved_context_str += f"- \x7bcontext_texts[idx]\x7d\n"`,
run over the retrieved documents in the order the index returned them. -/
def retrieved_context_str (docs : List String) : String :=
  docs.foldl (fun acc d => acc ++ ("- " ++ d ++ "\n")) RETRIEVED_CONTEXT_HEADER

/-- Line 187: `SYSTEM_PROMPT_TEMPLATE.format(retrieved_context=...)`, the
substitution at the template's single placeholder. -/
def format_system_prompt (retrieved_context : String) : String :=
  SYSTEM_PROMPT_TEMPLATE_before_placeholder ++ retrieved_context ++
    SYSTEM_PROMPT_TEMPLATE_after_placeholder

/-- Line 190: `prompt = f"\x7bfinal_system_prompt\x7d\n\nUser Question: \x7bquestion\x7d\nSQL Query:"`. -/
def full_prompt (final_system_prompt question : String) : String :=
  final_system_prompt ++ "\n\nUser Question: " ++ question ++ "\nSQL Query:"

/-! ## The question-to-SQL pipeline (`get_sql_from_question`, lines 166-201) -/

/-- The literal prefix of the string returned by the `except` branch
(line 201).  The file `gemini_utils.py` stores the intended `❌` emoji as
the three mojibake characters `U+201A U+00F9 U+00E5`; the embedding reproduces
the file's actual characters. -/
def GEMINI_ERROR_MARKER : String := "\u201A\u00F9\u00E5 Error generating SQL: "

/-- The literal prefix tested by `run.py` line 64:
`sql_query.startswith("❌ Error")` (a genuine `U+274C`). -/
def ASK_ERROR_MARKER : String := "\u274C Error"

/-- The two external effects inside the `try` block that can raise: encoding the
question (`embedding_model.encode`, line 177) and the generative-model call
(`model.generate_content(prompt).text`, line 194).  `Except.error` models a
raised exception carrying `str(e)`. -/
structure GeminiEnv where
  encode_question : Except String (List Int)
  generate_content : String → Except String String

/-- Lines 183-184: look every returned index up in `context_texts`
(Python indexing, so `-1` reads the last document); a failed lookup models the
`IndexError` the subscript would raise. -/
def gather_contexts (texts : List String) : List Int → Except String (List String)
  | [] => Except.ok []
  | i :: is =>
    match pyGetIndex texts i with
    | none => Except.error "list index out of range"
    | some d =>
      match gather_contexts texts is with
      | Except.ok rest => Except.ok (d :: rest)
      | Except.error e => Except.error e

/-- The body of the `try` block of `get_sql_from_question` (lines 177-198):
encode the question, search the index with `k=3`, assemble the prompt, call the
model transparently and clean its response.  Any raised exception
short-circuits as `Except.error`. -/
def try_get_sql (idx : IndexFlatL2) (context_texts : List String)
    (env : GeminiEnv) (question : String) : Except String String :=
  match env.encode_question with
  | Except.error e => Except.error e
  | Except.ok query_embedding =>
    let results := idx.search query_embedding 3
    match gather_contexts context_texts (results.map (fun p => p.1)) with
    | Except.error e => Except.error e
    | Except.ok docs =>
      let prompt := full_prompt (format_system_prompt (retrieved_context_str docs)) question
      match env.generate_content prompt with
      | Except.error e => Except.error e
      | Except.ok response_text => Except.ok (extract_sql response_text)

/-- `get_sql_from_question` (lines 166-201): the `try` body, with the `except`
branch converting any raised exception into the marker-prefixed string of
line 201.  The function is total: no exception propagates to the caller. -/
def get_sql_from_question (idx : IndexFlatL2) (context_texts : List String)
    (env : GeminiEnv) (question : String) : String :=
  match try_get_sql idx context_texts env question with
  | Except.ok sql_query => sql_query
  | Except.error e => GEMINI_ERROR_MARKER ++ e

/-! ## The Flask routes (`run.py`) -/

/-- Line 29 of `run.py`. -/
def VALID_TABLES : List String := ["sales_summary", "ad_data", "eligibility_status"]

/-- Responses of the `/api/data/<table_name>` route. -/
inductive DataResponse
  | invalidTable
  | rowsOk
  | fetchError (msg : String)
deriving DecidableEq

/-- `get_table_data` (lines 37-48): reject a table name outside `VALID_TABLES`
with a 400 error, otherwise run `SELECT * FROM <table>`, converting an
execution exception into a 500 error. -/
def get_table_data (table_name : String) (execute_select : Except String Unit) :
    DataResponse :=
  if ¬ table_name ∈ VALID_TABLES then DataResponse.invalidTable
  else
    match execute_select with
    | Except.ok _ => DataResponse.rowsOk
    | Except.error e => DataResponse.fetchError e

/-- Responses of the `/api/ask` route. -/
inductive AskResponse
  | badRequest
  | sqlError (msg : String)
  | answered (sql : String)
  | serverError (msg : String)
deriving DecidableEq

/-- `ask` (lines 50-81): reject a missing or empty question (`if not question`),
obtain the SQL string from the pipeline, branch to a 500 error when it starts
with `ASK_ERROR_MARKER`, otherwise execute it; an execution exception is caught
by the outer `except` as a 500 error. -/
def ask (question : Option String) (gen_sql : String → String)
    (execute_sql : String → Except String Unit) : AskResponse :=
  match question with
  | none => AskResponse.badRequest
  | some q =>
    if q = "" then AskResponse.badRequest
    else
      let sql_query := gen_sql q
      if pyStartswith sql_query ASK_ERROR_MARKER then AskResponse.sqlError sql_query
      else
        match execute_sql sql_query with
        | Except.ok _ => AskResponse.answered sql_query
        | Except.error e => AskResponse.serverError e

/-! ## The frontend button handler (`frontend/app.py`, lines 108-114) -/

/-- What the "Ask Bot" click handler does with the text-input value. -/
inductive FrontendAction
  | warned
  | posted (question : String)
deriving DecidableEq

/-- Lines 108-114: `if not question.strip(): st.warning(...) else: requests.post(...)`. -/
def ask_button_handler (question : String) : FrontendAction :=
  if pyStrip question = "" then FrontendAction.warned
  else FrontendAction.posted question

/-- The question the frontend submits to `/api/ask`, if any. -/
def frontend_request (question : String) : Option String :=
  match ask_button_handler question with
  | FrontendAction.warned => none
  | FrontendAction.posted q => some q

/-- The composed frontend-to-backend flow: the backend route (and with it the
pipeline handed to it) runs only when the frontend actually posts a request. -/
def frontend_backend_response (question : String) (gen_sql : String → String)
    (execute_sql : String → Except String Unit) : Option AskResponse :=
  (frontend_request question).map (fun q => ask (some q) gen_sql execute_sql)

/-! ## `initialize_rag_components` (`gemini_utils.py`, lines 24-110)

Only the index/context part (lines 43-106) is embedded; the embedding-model
loading (lines 32-40) raises fatally on failure and is orthogonal to the claims
considered here.  The encoder itself is an external model, abstracted as a
function argument. -/

/-- The two persisted artifacts on disk.  `none` — the file does not exist;
`some none` — it exists but deserialization raises; `some (some v)` — it
deserializes to `v`. -/
structure DiskState where
  faiss_index_file : Option (Option IndexFlatL2)
  context_data_file : Option (Option (List String))

/-- Lines 44-54: the load attempt succeeds only when both files exist
(line 44) and both deserialize without raising (lines 47-49); otherwise the
`except` branch (or the skipped `if`) leaves `faiss_index = None`. -/
def deserialized_pair (disk : DiskState) : Option (IndexFlatL2 × List String) :=
  match disk.faiss_index_file, disk.context_data_file with
  | some iOpt, some cOpt =>
    match iOpt, cOpt with
    | some i, some c => some (i, c)
    | _, _ => none
  | _, _ => none

/-- The outcome of initialization: the in-memory state and what, if anything,
was written back to the two artifacts. -/
structure InitOutcome where
  faiss_index : IndexFlatL2
  context_texts : List String
  written_index : Option IndexFlatL2
  written_context : Option (List String)
deriving DecidableEq

/-- Lines 43-106: use the loaded pair when the load attempt succeeds; otherwise
rebuild — set `context_texts` to the hard-coded corpus, encode it, build a flat
L2 index over the embeddings (lines 92-100) and write both artifacts back
(lines 103-105). -/
def initialize_rag_components (disk : DiskState)
    (encode : List String → List (List Int)) : InitOutcome :=
  match deserialized_pair disk with
  | some (i, c) => ⟨i, c, none, none⟩
  | none =>
    let texts := knowledge_base_documents
    let embeddings := encode texts
    let idx : IndexFlatL2 := ⟨embeddings⟩
    ⟨idx, texts, some idx, some texts⟩

/-! ## `preprocess_df` on the eligibility table (`dataloader/dataload.py`)

A pandas column is embedded with its dtype made explicit, because the dtype
drives the source's control flow: step 2 (lines 41-61) runs
`pd.to_numeric(..., errors='coerce')` on every column — which always yields a
*numeric* dtype — and fills the resulting NaNs with 0, and step 3's
eligibility mapping (lines 105-106) is guarded by
`df['eligibility'].dtype == 'object'`. -/

/-- A single dataframe column: either still strings (`object` dtype) or numeric. -/
inductive PdColumn
  | objectCol (vals : List String)
  | numericCol (vals : List ℚ)
deriving DecidableEq

/-- The character class removed by line 47:
`str.replace(r'[₹$,% ]', '', regex=True)`. -/
def CURRENCY_CHARS : List Char := ['₹', '$', ',', '%', ' ']

/-- Line 47: remove currency symbols, commas, spaces and percent signs. -/
def clean_chars (s : String) : String :=
  ⟨s.toList.filter (fun c => ¬ CURRENCY_CHARS.contains c)⟩

/-- Digits to the natural number they denote. -/
def digitsToNat (cs : List Char) : Nat :=
  cs.foldl (fun n c => 10 * n + (c.toNat - Char.toNat '0')) 0

/-- Model of `pd.to_numeric(..., errors='coerce')` on one cell: parse an
optionally signed decimal literal; anything else coerces to NaN (`none`).
(Scientific notation is omitted; the cells relevant here are either plain
words, which fail to parse, or plain decimals.) -/
def parse_numeric (s : String) : Option ℚ :=
  let cs := s.toList
  let signedBody : Bool × List Char :=
    match cs with
    | '-' :: t => (true, t)
    | '+' :: t => (false, t)
    | _ => (false, cs)
  let value : Option ℚ :=
    match signedBody.2.splitOn '.' with
    | [ip] =>
      if ip.isEmpty = false ∧ ip.all (fun c => c.isDigit) = true then
        some ((digitsToNat ip : ℚ))
      else none
    | [ip, fp] =>
      if (ip ++ fp).isEmpty = false ∧ (ip ++ fp).all (fun c => c.isDigit) = true then
        some ((digitsToNat ip : ℚ) + (digitsToNat fp : ℚ) / (10 : ℚ) ^ fp.length)
      else none
    | _ => none
  value.map (fun v => if signedBody.1 then -v else v)

/-- Step 2 of `preprocess_df` (lines 41-61) on one column: an `object` column
is cleaned and coerced with `pd.to_numeric(..., errors='coerce')` — the result
dtype is numeric whatever the cells were — and NaNs introduced by the coercion
are filled with 0 (line 57); a numeric column passes through `to_numeric`
unchanged.  (The later datetime attempt of lines 66-71 is guarded by the dtype
still being `object`, which after this step it never is.) -/
def general_numeric_pass (col : PdColumn) : PdColumn :=
  match col with
  | PdColumn.objectCol vals =>
    PdColumn.numericCol (vals.map (fun s => (parse_numeric (clean_chars s)).getD 0))
  | PdColumn.numericCol vals => PdColumn.numericCol vals

/-- The dictionary of line 106 applied to one lowercased cell, with the final
`.fillna(0)`: `\x7b'true': 1, 'false': 0, 'yes': 1, 'no': 0, 'eligible': 1,
'not eligible': 0\x7d`, unmapped values becoming 0. -/
def eligibility_map_value (s : String) : ℚ :=
  let l := pyLower s
  let mapped : Option ℚ :=
    if l = "true" then some 1
    else if l = "false" then some 0
    else if l = "yes" then some 1
    else if l = "no" then some 0
    else if l = "eligible" then some 1
    else if l = "not eligible" then some 0
    else none
  mapped.getD 0

/-- Step 3 of `preprocess_df` for the eligibility table (lines 105-106): run
the truthy/falsy mapping only when the column's dtype is still `object`. -/
def eligibility_specific_pass (col : PdColumn) : PdColumn :=
  match col with
  | PdColumn.objectCol vals =>
    PdColumn.numericCol (vals.map eligibility_map_value)
  | PdColumn.numericCol vals => PdColumn.numericCol vals

/-- `preprocess_df` restricted to the `eligibility` column of the eligibility
table: the general pass of step 2 followed by the table-specific pass of
step 3. -/
def preprocess_eligibility_column (col : PdColumn) : PdColumn :=
  eligibility_specific_pass (general_numeric_pass col)

/-- The specification-side rendering of a "Relevant Context" block: one
bulleted line per document, in the given order.  Used to state what the loop of
`retrieved_context_str` produces. -/
def bullet_lines : List String → String
  | [] => ""
  | d :: ds => "- " ++ d ++ "\n" ++ bullet_lines ds

/-! # Theorems -/

/-! ## Helper lemmas about the flat index -/

lemma scoredFrom_length (q : List Int) (vs : List (List Int)) :
    ∀ i, (scoredFrom q vs i).length = vs.length := by
  induction vs with
  | nil => intro i; rfl
  | cons v vs ih => intro i; simp [scoredFrom, ih]

lemma scoredFrom_map_fst (q : List Int) (vs : List (List Int)) :
    ∀ i, (scoredFrom q vs i).map Prod.fst =
      (List.range vs.length).map (fun j => Int.ofNat (i + j)) := by
  induction vs with
  | nil => intro i; rfl
  | cons v vs ih =>
    intro i
    simp only [scoredFrom, List.map_cons, ih (i + 1), List.length_cons,
      List.range_succ_eq_map, List.map_map]
    refine List.cons_eq_cons.mpr ⟨by simp, ?_⟩
    refine List.map_congr_left (fun a _ => ?_)
    simp only [Function.comp_apply]
    congr 1
    omega

lemma mem_scoredFrom (q : List Int) (vs : List (List Int)) :
    ∀ (i : Nat) (p : Int × Int), p ∈ scoredFrom q vs i →
      ∃ j, j < vs.length ∧ p.1 = Int.ofNat (i + j) ∧
        p.2 = sqDist q (vs.getD j []) := by
  induction vs with
  | nil => intro i p h; simp [scoredFrom] at h
  | cons v vs ih =>
    intro i p h
    simp only [scoredFrom, List.mem_cons] at h
    rcases h with h | h
    · exact ⟨0, by simp, by simp [h], by simp [h]⟩
    · obtain ⟨j, hj, h1, h2⟩ := ih (i + 1) p h
      refine ⟨j + 1, by simp only [List.length_cons]; omega, ?_,
        by simpa [List.getD_cons_succ] using h2⟩
      rw [h1]; congr 1; omega

lemma ranked_length (idx : IndexFlatL2) (q : List Int) :
    (List.insertionSort byDist (scoredFrom q idx.vecs 0)).length =
      idx.vecs.length :=
  (List.perm_insertionSort byDist (scoredFrom q idx.vecs 0)).length_eq.trans
    (scoredFrom_length q idx.vecs 0)

/-! ## Helper lemma about the context block -/

lemma retrieved_context_foldl (docs : List String) :
    ∀ acc : String,
      docs.foldl (fun a d => a ++ ("- " ++ d ++ "\n")) acc =
        acc ++ bullet_lines docs := by
  induction docs with
  | nil => intro acc; simp [bullet_lines]
  | cons d ds ih =>
    intro acc
    rw [List.foldl_cons, ih]
    simp [bullet_lines, String.append_assoc]

/-! ## Claim C4 -/

/-- Claim C4 (confirmed): for every query vector and every corpus of size at
least `k`, the similarity search returns exactly `k` `(document_id, distance)`
pairs, ordered by non-decreasing squared Euclidean (L2) distance between the
query vector and the indexed vectors, and every returned distance is the
squared L2 distance to the indexed vector the id points at. -/
theorem C4_search_returns_topk_sorted (idx : IndexFlatL2) (q : List Int)
    (k : Nat) (h : k ≤ idx.vecs.length) :
    (idx.search q k).length = k ∧
    List.Sorted byDist (idx.search q k) ∧
    ∀ p ∈ idx.search q k, 0 ≤ p.1 ∧ p.1.toNat < idx.vecs.length ∧
      p.2 = sqDist q (idx.vecs.getD p.1.toNat []) := by
  have hlen := ranked_length idx q
  have hslen : (scoredFrom q idx.vecs 0).length = idx.vecs.length :=
    scoredFrom_length q idx.vecs 0
  have hk0 : k - (scoredFrom q idx.vecs 0).length = 0 := by omega
  have hsearch : idx.search q k =
      (List.insertionSort byDist (scoredFrom q idx.vecs 0)).take k := by
    simp [IndexFlatL2.search, hk0]
  refine ⟨?_, ?_, ?_⟩
  · rw [hsearch, List.length_take, hlen]
    exact min_eq_left h
  · rw [hsearch]
    exact List.Pairwise.sublist (List.take_sublist k _)
      (List.sorted_insertionSort byDist _)
  · intro p hp
    rw [hsearch] at hp
    have hp2 := (List.perm_insertionSort byDist _).mem_iff.mp
      (List.mem_of_mem_take hp)
    obtain ⟨j, hj, h1, h2⟩ := mem_scoredFrom q idx.vecs 0 p hp2
    have h1' : p.1 = Int.ofNat j := by rw [h1]; congr 1; omega
    refine ⟨by rw [h1']; exact Int.ofNat_nonneg j, ?_, ?_⟩
    · rw [h1']; exact hj
    · rw [h1']; exact h2

/-- Witness for C4 at a concrete two-document index with `k = 1`. -/
theorem C4_witness :
    1 ≤ (⟨[[0], [1]]⟩ : IndexFlatL2).vecs.length ∧
    ((IndexFlatL2.search ⟨[[0], [1]]⟩ [0] 1).length = 1 ∧
      List.Sorted byDist (IndexFlatL2.search ⟨[[0], [1]]⟩ [0] 1) ∧
      ∀ p ∈ IndexFlatL2.search ⟨[[0], [1]]⟩ [0] 1, 0 ≤ p.1 ∧
        p.1.toNat < (⟨[[0], [1]]⟩ : IndexFlatL2).vecs.length ∧
        p.2 = sqDist [0] ((⟨[[0], [1]]⟩ : IndexFlatL2).vecs.getD p.1.toNat [])) :=
  ⟨by decide, C4_search_returns_topk_sorted ⟨[[0], [1]]⟩ [0] 1 (by decide)⟩

/-! ## Claim C1 -/

/-- Counterexample to claim C1: with one indexed document and the pipeline's
`k = 3`, the similarity search does not return corpus-size (1) results — it
returns 3, two of which are padding entries with id `-1` (so the returned ids
are not pairwise distinct and do not all refer to real documents). -/
theorem C1_counterexample :
    (IndexFlatL2.search ⟨[[0]]⟩ [0] 3).length = 3 ∧
    ¬ (IndexFlatL2.search ⟨[[0]]⟩ [0] 3).length = 1 ∧
    FAISS_PAD_ENTRY ∈ IndexFlatL2.search ⟨[[0]]⟩ [0] 3 ∧
    ¬ List.Pairwise (fun a b => ¬ a = b)
        ((IndexFlatL2.search ⟨[[0]]⟩ [0] 3).map Prod.fst) := by decide

/-- Claim C1 as amended: when the requested `k` exceeds the corpus size `n`,
the similarity search step returns exactly `k` results, of which the first `n`
are all `n` real documents — each id exactly once, ordered by non-decreasing
distance — and the remaining `k - n` are padding entries with id `-1` (not
ids of real documents). -/
theorem C1_search_pads_when_k_exceeds_corpus (idx : IndexFlatL2) (q : List Int)
    (k : Nat) (h : idx.vecs.length < k) :
    (idx.search q k).length = k ∧
    List.Sorted byDist ((idx.search q k).take idx.vecs.length) ∧
    (((idx.search q k).take idx.vecs.length).map Prod.fst).Perm
      ((List.range idx.vecs.length).map Int.ofNat) ∧
    (idx.search q k).drop idx.vecs.length =
      List.replicate (k - idx.vecs.length) FAISS_PAD_ENTRY := by
  have hlen := ranked_length idx q
  have hslen : (scoredFrom q idx.vecs 0).length = idx.vecs.length :=
    scoredFrom_length q idx.vecs 0
  have htake : (List.insertionSort byDist (scoredFrom q idx.vecs 0)).take k =
      List.insertionSort byDist (scoredFrom q idx.vecs 0) :=
    List.take_of_length_le (by omega)
  have hsearch : idx.search q k =
      List.insertionSort byDist (scoredFrom q idx.vecs 0) ++
        List.replicate (k - idx.vecs.length) FAISS_PAD_ENTRY := by
    simp [IndexFlatL2.search, htake, hslen]
  have htl : (List.insertionSort byDist (scoredFrom q idx.vecs 0) ++
      List.replicate (k - idx.vecs.length) FAISS_PAD_ENTRY).take idx.vecs.length =
      List.insertionSort byDist (scoredFrom q idx.vecs 0) := by
    rw [← hlen]; exact List.take_left _ _
  have hdl : (List.insertionSort byDist (scoredFrom q idx.vecs 0) ++
      List.replicate (k - idx.vecs.length) FAISS_PAD_ENTRY).drop idx.vecs.length =
      List.replicate (k - idx.vecs.length) FAISS_PAD_ENTRY := by
    rw [← hlen]; exact List.drop_left _ _
  refine ⟨?_, ?_, ?_, ?_⟩
  · rw [hsearch]
    simp only [List.length_append, List.length_replicate, hlen]
    omega
  · rw [hsearch, htl]
    exact List.sorted_insertionSort byDist _
  · rw [hsearch, htl]
    have hperm := (List.perm_insertionSort byDist (scoredFrom q idx.vecs 0)).map Prod.fst
    rw [scoredFrom_map_fst] at hperm
    have hcongr : (List.range idx.vecs.length).map (fun j => Int.ofNat (0 + j)) =
        (List.range idx.vecs.length).map Int.ofNat :=
      List.map_congr_left (fun a _ => by simp)
    rw [hcongr] at hperm
    exact hperm
  · rw [hsearch, hdl]

/-- Witness for the amended C1 at a one-document index and the pipeline's `k = 3`. -/
theorem C1_witness :
    (⟨[[0]]⟩ : IndexFlatL2).vecs.length < 3 ∧
    ((IndexFlatL2.search ⟨[[0]]⟩ [0] 3).length = 3 ∧
      List.Sorted byDist
        ((IndexFlatL2.search ⟨[[0]]⟩ [0] 3).take (⟨[[0]]⟩ : IndexFlatL2).vecs.length) ∧
      (((IndexFlatL2.search ⟨[[0]]⟩ [0] 3).take
          (⟨[[0]]⟩ : IndexFlatL2).vecs.length).map Prod.fst).Perm
        ((List.range (⟨[[0]]⟩ : IndexFlatL2).vecs.length).map Int.ofNat) ∧
      (IndexFlatL2.search ⟨[[0]]⟩ [0] 3).drop (⟨[[0]]⟩ : IndexFlatL2).vecs.length =
        List.replicate (3 - (⟨[[0]]⟩ : IndexFlatL2).vecs.length) FAISS_PAD_ENTRY) :=
  ⟨by decide, C1_search_pads_when_k_exceeds_corpus ⟨[[0]]⟩ [0] 3 (by decide)⟩

/-! ## Claim C2 -/

/-- Claim C2 (code bug): a model-call exception is indeed converted into a
returned string (nothing propagates), but the returned string begins with the
mojibake marker of `gemini_utils.py` line 201, NOT with the `"❌ Error"` prefix
that `run.py` line 64 tests — the two literals differ (`U+201A U+00F9 U+00E5`
versus `U+274C`), so the `/api/ask` error branch never recognizes the pipeline
error string and passes it on to SQL execution instead. -/
theorem C2_error_marker_mismatch :
    get_sql_from_question ⟨[[0]]⟩ ["doc"]
        ⟨Except.ok [0], fun _ => Except.error "boom"⟩ "q" =
      GEMINI_ERROR_MARKER ++ "boom" ∧
    pyStartswith (GEMINI_ERROR_MARKER ++ "boom") ASK_ERROR_MARKER = false ∧
    ask (some "q") (fun _ => GEMINI_ERROR_MARKER ++ "boom")
        (fun _ => Except.error "db syntax error") =
      AskResponse.serverError "db syntax error" := by decide

/-! ## Claim C3 -/

/-- Claim C3 (code bug): on the fenced input of the claim the extractor does
return exactly `SELECT 1;`, but the extraction is `str.strip` with a character
*set*, so it does not leave the enclosed SQL unchanged in general: a bare
lowercase response loses its leading `s` (`"select 1;"` becomes `"elect 1;"`). -/
theorem C3_extractor_strips_character_sets :
    extract_sql ("\x60\x60\x60sql\nSELECT 1;\n\x60\x60\x60") = "SELECT 1;" ∧
    extract_sql ("select 1;") = "elect 1;" := by decide

/-! ## Claim C5 -/

/-- Counterexample to claim C5: the `/api/ask` route executes SQL naming the
table `secret_table`, which is outside `VALID_TABLES`, instead of rejecting it
— no allow-list check exists on that route. -/
theorem C5_counterexample :
    ask (some "show the secret table") (fun _ => "SELECT * FROM secret_table")
        (fun _ => Except.ok ()) =
      AskResponse.answered "SELECT * FROM secret_table" ∧
    ¬ "secret_table" ∈ VALID_TABLES := by decide

/-- Claim C5 as amended: the table allow-list is enforced only by the
`/api/data/<table_name>` route on its table-name path parameter; the `/api/ask`
route performs no table check on the generated SQL — any SQL string that does
not start with the error marker is handed to execution regardless of the
tables it names. -/
theorem C5_allowlist_only_on_data_route (t : String)
    (fetch : Except String Unit) (q : String) (gen_sql : String → String)
    (run_sql : String → Except String Unit)
    (ht : ¬ t ∈ VALID_TABLES) (hq : ¬ q = "")
    (hm : pyStartswith (gen_sql q) ASK_ERROR_MARKER = false) :
    get_table_data t fetch = DataResponse.invalidTable ∧
    ask (some q) gen_sql run_sql =
      (match run_sql (gen_sql q) with
        | Except.ok _ => AskResponse.answered (gen_sql q)
        | Except.error e => AskResponse.serverError e) := by
  constructor
  · simp [get_table_data, ht]
  · simp [ask, hq, hm]

/-- Witness for the amended C5 at concrete inputs. -/
theorem C5_witness :
    (¬ "secret_table" ∈ VALID_TABLES) ∧ (¬ "show my ads" = "") ∧
    pyStartswith ((fun _ => "SELECT * FROM phantom_table") "show my ads")
      ASK_ERROR_MARKER = false ∧
    (get_table_data "secret_table" (Except.ok ()) = DataResponse.invalidTable ∧
      ask (some "show my ads") (fun _ => "SELECT * FROM phantom_table")
          (fun _ => Except.ok ()) =
        AskResponse.answered "SELECT * FROM phantom_table") :=
  ⟨by decide, by decide, by decide,
    C5_allowlist_only_on_data_route "secret_table" (Except.ok ()) "show my ads"
      (fun _ => "SELECT * FROM phantom_table") (fun _ => Except.ok ())
      (by decide) (by decide) (by decide)⟩

/-! ## Claim C6 -/

/-- Claim C6 (confirmed): an empty or whitespace-only question is rejected by
the frontend button handler (`st.warning`, no HTTP request), so neither the
`/api/ask` route nor the pipeline — and with it the similarity-index search —
is ever invoked for such a question. -/
theorem C6_blank_question_rejected_upstream (q : String) (idx : IndexFlatL2)
    (texts : List String) (env : GeminiEnv)
    (run_sql : String → Except String Unit) (h : pyStrip q = "") :
    ask_button_handler q = FrontendAction.warned ∧
    frontend_request q = none ∧
    frontend_backend_response q
      (fun s => get_sql_from_question idx texts env s) run_sql = none := by
  refine ⟨?_, ?_, ?_⟩ <;>
    simp [ask_button_handler, frontend_request, frontend_backend_response, h]

/-- Witness for C6 at the whitespace-only question `"   "`. -/
theorem C6_witness :
    pyStrip ("   ") = "" ∧
    (ask_button_handler ("   ") = FrontendAction.warned ∧
      frontend_request ("   ") = none ∧
      frontend_backend_response ("   ")
        (fun s => get_sql_from_question ⟨[[0]]⟩ ["doc"]
          ⟨Except.ok [0], fun _ => Except.ok "SELECT 1;"⟩ s)
        (fun _ => Except.ok ()) = none) :=
  ⟨by decide,
    C6_blank_question_rejected_upstream ("   ") ⟨[[0]]⟩ ["doc"]
      ⟨Except.ok [0], fun _ => Except.ok "SELECT 1;"⟩ (fun _ => Except.ok ())
      (by decide)⟩

/-! ## Claim C7 -/

/-- Counterexample to claim C7: both artifacts deserialize — an index holding
1 vector and a document list of length 2 — yet `initialize_rag_components`
trusts the mismatched pair as-is: it keeps it in memory, does not rebuild from
the constant corpus and writes nothing back; no count validation exists. -/
theorem C7_counterexample :
    initialize_rag_components ⟨some (some ⟨[[0]]⟩), some (some ["a", "b"])⟩
        (fun _ => []) =
      ⟨⟨[[0]]⟩, ["a", "b"], none, none⟩ ∧
    ¬ (["a", "b"] : List String).length = (⟨[[0]]⟩ : IndexFlatL2).vecs.length := by
  decide

/-- Claim C7 as amended: whenever both persisted artifacts deserialize
successfully, `initialize_rag_components` trusts the loaded pair
unconditionally — it performs no validation that the document count matches
the index's vector count, and writes nothing back. -/
theorem C7_loaded_pair_trusted_unconditionally (i : IndexFlatL2)
    (c : List String) (encode : List String → List (List Int)) :
    initialize_rag_components ⟨some (some i), some (some c)⟩ encode =
      ⟨i, c, none, none⟩ := rfl

/-! ## Claim C8 -/

/-- Claim C8 (confirmed): on any deserialization failure — a missing artifact
file or one that raises during deserialization — `initialize_rag_components`
rebuilds from the embedded constant corpus (`knowledge_base_documents`,
encoded and stored in a fresh flat L2 index) and re-persists both artifacts. -/
theorem C8_rebuild_and_repersist_on_load_failure (disk : DiskState)
    (encode : List String → List (List Int))
    (h : deserialized_pair disk = none) :
    initialize_rag_components disk encode =
      ⟨⟨encode knowledge_base_documents⟩, knowledge_base_documents,
        some ⟨encode knowledge_base_documents⟩,
        some knowledge_base_documents⟩ := by
  unfold initialize_rag_components
  rw [h]

/-- Witness for C8: the index artifact is missing (the context artifact even
deserializes), and initialization rebuilds and re-persists both artifacts. -/
theorem C8_witness :
    deserialized_pair ⟨none, some (some ["stale"])⟩ = none ∧
    initialize_rag_components ⟨none, some (some ["stale"])⟩ (fun _ => []) =
      ⟨⟨[]⟩, knowledge_base_documents, some ⟨[]⟩,
        some knowledge_base_documents⟩ :=
  ⟨rfl, C8_rebuild_and_repersist_on_load_failure ⟨none, some (some ["stale"])⟩
    (fun _ => []) rfl⟩

/-! ## Claim C9 -/

/-- Claim C9 (confirmed): for every question and list of retrieved documents,
the assembled prompt is exactly the template's before-placeholder part, then
the "Relevant Context" header followed by one bulleted line per retrieved
document in the given (ascending-distance) order, then the template's
after-placeholder part, then the user's full question and the `SQL Query:`
tail — nothing is truncated or omitted. -/
theorem C9_prompt_assembly (question : String) (docs : List String) :
    full_prompt (format_system_prompt (retrieved_context_str docs)) question =
      SYSTEM_PROMPT_TEMPLATE_before_placeholder ++
        (RETRIEVED_CONTEXT_HEADER ++ bullet_lines docs) ++
        SYSTEM_PROMPT_TEMPLATE_after_placeholder ++
        ("\n\nUser Question: " ++ question ++ "\nSQL Query:") := by
  simp only [full_prompt, format_system_prompt, retrieved_context_str]
  rw [retrieved_context_foldl]
  simp [String.append_assoc]

/-! ## Claim C10 -/

/-- Claim C10 (code bug): after `preprocess_df`, recognized truthy strings in
the `eligibility` column do NOT map to 1 — the general `to_numeric` coercion of
step 2 already turned every such string into NaN, filled it with 0 and changed
the dtype to numeric, so the truthy/falsy mapping of line 106 (whose intended
behaviour the second conjunct exhibits) never runs on a string column: every
cell comes out 0. -/
theorem C10_eligibility_truthy_values_lost :
    preprocess_eligibility_column
        (PdColumn.objectCol ["true", "False", "yes", "eligible", "not eligible"]) =
      PdColumn.numericCol [0, 0, 0, 0, 0] ∧
    eligibility_map_value ("True") = 1 ∧
    ¬ preprocess_eligibility_column (PdColumn.objectCol ["true"]) =
        PdColumn.numericCol [1] := by decide

end EcommerceBot
